import Mathlib

/-!
Verification of the synchronous channel-based IPC layer described by the
repository's specification, whose reference implementation is the QNX
client/server pair in src/QNX_ipc.cpp.  The concrete handler, payload
shapes and client/server control flow are embedded from the source file;
the channel registry (createChannel / attach / send / receive / reply /
destroyChannel with timeout and close semantics) is realised in the source
only through QNX kernel primitives (ChannelCreate, ConnectAttach, MsgSend,
MsgReceive, MsgReply), whose bodies are not part of the repository, so the
registry itself is modelled from the specification.
-/

namespace QNXIpc

/-- Error kinds of the IPC core (spec, section 7). -/
inductive Err where
  | NotFound
  | ResourceExhausted
  | Timeout
  | ChannelClosed
  | InvalidHandle
  | PayloadTooLarge
  deriving DecidableEq, Repr

/-- The fixed message shape of src/QNX_ipc.cpp lines 22-25:
`typedef struct { int msg_type; char text[100]; } Message;`. -/
structure Message where
  msg_type : Int
  text : String
  deriving DecidableEq, Repr

/-- Modelled from the spec: a Request is an immutable payload plus a
`requestId` unique per outstanding request, generated at send time. -/
structure Request (α : Type) where
  requestId : Nat
  payload : α
  deriving DecidableEq, Repr

/-- Modelled from the spec: the reply slot of one outstanding request:
`waiting` while the sender is blocked, `delivered` once the matching
`reply` has deposited a payload and status. -/
inductive Slot (α : Type) where
  | waiting
  | delivered (payload : α) (status : Int)
  deriving DecidableEq, Repr

/-- Modelled from the spec: a Channel holds the FIFO queue of pending
requests, the reply-slot table keyed by requestId, and whether a receiver
is currently suspended waiting for a request. -/
structure Channel (α : Type) where
  pendingRequests : List (Request α)
  pendingReplies : List (Nat × Slot α)
  receiverBlocked : Bool
  deriving DecidableEq, Repr

/-- A freshly created channel: empty queues, no blocked receiver. -/
def Channel.empty (α : Type) : Channel α :=
  { pendingRequests := [], pendingReplies := [], receiverBlocked := false }

/-- Modelled from the spec: the process-wide Channel Registry, mapping
channel identifiers to channels, with counters for fresh ids. -/
structure Registry (α : Type) where
  channels : List (Nat × Channel α)
  nextChannelId : Nat
  nextRequestId : Nat
  deriving DecidableEq, Repr

/-- The initial registry: no channels.  Channel ids start at 1 to match
the reference snippet's `SERVER_CHANNEL 1`. -/
def Registry.init (α : Type) : Registry α :=
  { channels := [], nextChannelId := 1, nextRequestId := 1 }

/-- Configuration of the registry: payload size measure, channel-table
capacity, and the configured maximum payload size. -/
structure Config (α : Type) where
  psize : α → Nat
  maxChannels : Nat
  maxPayload : Nat

/-- Association-list lookup on Nat keys. -/
def alookup {β : Type} : List (Nat × β) → Nat → Option β
  | [], _ => none
  | (k, v) :: rest, k' => if k = k' then some v else alookup rest k'

/-- Association-list update: replaces the value at an existing key,
leaves the list unchanged if the key is absent. -/
def aupdate {β : Type} (l : List (Nat × β)) (k : Nat) (v : β) : List (Nat × β) :=
  l.map (fun p => if p.1 = k then (k, v) else p)

/-- Association-list removal of every entry with the given key. -/
def aremove {β : Type} (l : List (Nat × β)) (k : Nat) : List (Nat × β) :=
  l.filter (fun p => p.1 ≠ k)

/-- A client-held handle referencing a channel (spec data model):
`targetChannelId` plus the node, local node being 0 (`ND_LOCAL_NODE`). -/
structure Connection where
  targetChannelId : Nat
  targetNode : Nat
  deriving DecidableEq, Repr

/-- The opaque handle returned by `receive`, capturing the originating
request's identity for replying. -/
structure RequestHandle where
  channelId : Nat
  requestId : Nat
  deriving DecidableEq, Repr

/-- Modelled from the spec: `createChannel` allocates a new channel with
empty queues; fails with `ResourceExhausted` if the channel table is
full. -/
def createChannel {α : Type} (cfg : Config α) (st : Registry α) :
    Except Err (Nat × Registry α) :=
  if cfg.maxChannels ≤ st.channels.length then
    .error .ResourceExhausted
  else
    let cid := st.nextChannelId
    .ok (cid,
      { st with
        channels := (cid, Channel.empty α) :: st.channels,
        nextChannelId := cid + 1 })

/-- Modelled from the spec: `attach` resolves a channel reference; fails
with `NotFound` if no such channel exists (not yet created, or already
destroyed). -/
def attach {α : Type} (st : Registry α) (cid node : Nat) : Except Err Connection :=
  match alookup st.channels cid with
  | none => .error .NotFound
  | some _ => .ok { targetChannelId := cid, targetNode := node }

/-- A channel after a request with id `rid` and payload `p` is appended
to its FIFO queue together with a fresh waiting reply slot. -/
def enqueuedChannel {α : Type} (ch : Channel α) (rid : Nat) (p : α) : Channel α :=
  { ch with
    pendingRequests := ch.pendingRequests ++ [{ requestId := rid, payload := p }],
    pendingReplies := ch.pendingReplies ++ [(rid, Slot.waiting)] }

/-- The registry state after a request with id `rid` and payload `p` is
appended to channel `ch`'s FIFO queue with a fresh waiting reply slot. -/
def enqueueState {α : Type} (st : Registry α) (cid : Nat) (ch : Channel α)
    (rid : Nat) (p : α) : Registry α :=
  { st with channels := aupdate st.channels cid (enqueuedChannel ch rid p),
            nextRequestId := rid + 1 }

/-- Modelled from the spec: the enqueue half of `send`: length-bounds the
payload (fails with `PayloadTooLarge` beyond the configured maximum, the
core interpreting nothing else of it), generates a fresh `requestId`,
appends the request to the channel's FIFO queue and registers a waiting
reply slot; the calling context then suspends on that slot.  Fails with
`ChannelClosed` if the target channel was destroyed. -/
def sendEnqueue {α : Type} (cfg : Config α) (st : Registry α)
    (conn : Connection) (p : α) : Except Err (Nat × Registry α) :=
  if cfg.maxPayload < cfg.psize p then
    .error .PayloadTooLarge
  else
    match alookup st.channels conn.targetChannelId with
    | none => .error .ChannelClosed
    | some ch =>
      .ok (st.nextRequestId,
        enqueueState st conn.targetChannelId ch st.nextRequestId p)

/-- Outcome of one `receive` attempt: a dequeued request, a suspension
(no request queued yet), or a registry-level failure. -/
inductive ReceiveResult (α : Type) where
  | got (h : RequestHandle) (payload : α) (st : Registry α)
  | blocked (st : Registry α)
  | fail (e : Err)
  deriving Repr

/-- The registry state after the head request of channel `ch` is
dequeued, leaving `rest`. -/
def dequeueState {α : Type} (st : Registry α) (cid : Nat) (ch : Channel α)
    (rest : List (Request α)) : Registry α :=
  { st with channels := aupdate st.channels cid { ch with pendingRequests := rest } }

/-- Modelled from the spec: `receive` dequeues the oldest queued request
(FIFO, preserving arrival order, no priority reordering) and returns it
with its handle; with an empty queue the receiver suspends (recorded in
the channel so a later destroy can wake it). -/
def receive {α : Type} (st : Registry α) (cid : Nat) : ReceiveResult α :=
  match alookup st.channels cid with
  | none => .fail .NotFound
  | some ch =>
    match ch.pendingRequests with
    | [] =>
      .blocked
        { st with channels := aupdate st.channels cid { ch with receiverBlocked := true } }
    | r :: rest =>
      .got { channelId := cid, requestId := r.requestId } r.payload
        (dequeueState st cid ch rest)

/-- Modelled from the spec: `reply` looks up the reply slot for the
handle's `requestId` and deposits payload and status there, waking exactly
the one blocked sender owning that slot.  Fails with `InvalidHandle` if
the slot was already replied to, was never registered, or the handle
refers to a destroyed channel. -/
def reply {α : Type} (st : Registry α) (h : RequestHandle) (p : α)
    (status : Int) : Except Err (Registry α) :=
  match alookup st.channels h.channelId with
  | none => .error .InvalidHandle
  | some ch =>
    match alookup ch.pendingReplies h.requestId with
    | none => .error .InvalidHandle
    | some (Slot.delivered _ _) => .error .InvalidHandle
    | some Slot.waiting =>
      let ch' := { ch with
        pendingReplies := aupdate ch.pendingReplies h.requestId (Slot.delivered p status) }
      .ok { st with channels := aupdate st.channels h.channelId ch' }

/-- Modelled from the spec: the wake-up half of `send`: once the slot
holds a delivered reply the suspended sender resumes with that payload and
status and the slot is consumed (removed).  Returns `none` while the slot
is still waiting or gone. -/
def sendComplete {α : Type} (st : Registry α) (cid rid : Nat) :
    Option (α × Int × Registry α) :=
  match alookup st.channels cid with
  | none => none
  | some ch =>
    match alookup ch.pendingReplies rid with
    | some (Slot.delivered p s) =>
      let ch' := { ch with pendingReplies := aremove ch.pendingReplies rid }
      some (p, s, { st with channels := aupdate st.channels cid ch' })
    | _ => none

/-- A channel after the timed-out request `rid` and its reply slot are
removed from it. -/
def cancelledChannel {α : Type} (ch : Channel α) (rid : Nat) : Channel α :=
  { ch with
    pendingRequests := ch.pendingRequests.filter (fun r => r.requestId ≠ rid),
    pendingReplies := aremove ch.pendingReplies rid }

/-- Modelled from the spec: timeout cleanup of a `send`: the queued
request and its reply slot are removed so neither a later `receive` nor a
later `reply` can match them. -/
def sendCancel {α : Type} (st : Registry α) (cid rid : Nat) : Registry α :=
  match alookup st.channels cid with
  | none => st
  | some ch =>
    { st with channels := aupdate st.channels cid (cancelledChannel ch rid) }

/-- Modelled from the spec: a `send` whose timeout T elapses with no
matching server-side `receive`/`reply`: the request is enqueued, no reply
ever arrives, the timeout fires, the caller gets a `Timeout` error and the
partially-registered state is removed. -/
def sendTimedOut {α : Type} (cfg : Config α) (st : Registry α)
    (conn : Connection) (p : α) : Except Err (α × Int) × Registry α :=
  match sendEnqueue cfg st conn p with
  | .error e => (.error e, st)
  | .ok (rid, st1) => (.error .Timeout, sendCancel st1 conn.targetChannelId rid)

/-- A party woken by `destroyChannel`, with the error it is woken with. -/
inductive Wake where
  | sender (requestId : Nat) (e : Err)
  | receiver (e : Err)
  deriving DecidableEq, Repr

/-- Modelled from the spec: `destroyChannel` removes the channel; every
still-queued request and every outstanding reply slot is resolved with a
`ChannelClosed` error, waking all blocked senders and any blocked
receiver. -/
def destroyChannel {α : Type} (st : Registry α) (cid : Nat) :
    Except Err (Registry α × List Wake) :=
  match alookup st.channels cid with
  | none => .error .NotFound
  | some ch =>
    let senderWakes := ch.pendingReplies.filterMap (fun q =>
      match q.2 with
      | Slot.waiting => some (Wake.sender q.1 Err.ChannelClosed)
      | Slot.delivered _ _ => none)
    let receiverWakes := if ch.receiverBlocked then [Wake.receiver Err.ChannelClosed] else []
    .ok ({ st with channels := aremove st.channels cid }, senderWakes ++ receiverWakes)

/-- The slot registered for request `rid` on channel `cid`, if any. -/
def slotOf {α : Type} (st : Registry α) (cid rid : Nat) : Option (Slot α) :=
  match alookup st.channels cid with
  | none => none
  | some ch => alookup ch.pendingReplies rid

/-- The server's handler embedded from src/QNX_ipc.cpp lines 44-50: it
prints the received text and replies, independently of the request, with
`msg_type = 1`, text "Hello from the server!" and status 0. -/
def serverHandler (_m : Message) : Message × Int :=
  ({ msg_type := 1, text := "Hello from the server!" }, 0)

/-- The client's request from src/QNX_ipc.cpp lines 78-80:
`msg_type = 1`, text "Hello, Server!". -/
def clientRequest : Message :=
  { msg_type := 1, text := "Hello, Server!" }

/-- Registry configuration for the fixed `Message` payload shape:
`sizeof(Message)` is 104 bytes (4-byte int plus char[100]), which is both
the size of every message and the configured maximum. -/
def msgCfg : Config Message :=
  { psize := fun _ => 104, maxChannels := 16, maxPayload := 104 }

/-- The round-trip scenario of the reference snippet, parameterized by
the client's request text: the server creates a channel, the client
attaches and sends `{msg_type := 1, text := clientText}` (blocking), the
server receives it, runs `serverHandler` and replies, and the client's
call completes with the reply payload and status. -/
def roundTrip (clientText : String) : Except Err (Message × Int) :=
  match createChannel msgCfg (Registry.init Message) with
  | .error e => .error e
  | .ok (cid, st1) =>
    match attach st1 cid 0 with
    | .error e => .error e
    | .ok conn =>
      match sendEnqueue msgCfg st1 conn { msg_type := 1, text := clientText } with
      | .error e => .error e
      | .ok (rid, st2) =>
        match receive st2 cid with
        | .fail e => .error e
        | .blocked _ => .error .Timeout
        | .got h p st3 =>
          let hr := serverHandler p
          match reply st3 h hr.1 hr.2 with
          | .error e => .error e
          | .ok st4 =>
            match sendComplete st4 cid rid with
            | none => .error .Timeout
            | some (rp, rs, _) => .ok (rp, rs)

/-- Modelled from the spec: a handler-level failure is represented as an
`Except`: the injected business-logic handler either produces a reply
payload and status or fails with a diagnostic. -/
def handlerReply {α : Type} (handler : α → Except String (α × Int))
    (errPayload : α) (p : α) : α × Int :=
  match handler p with
  | .ok r => r
  | .error _ => (errPayload, -1)

/-- Outcome of one iteration of the server loop. -/
inductive StepOutcome (α : Type) where
  | processed (rid : Nat) (st : Registry α)
  | idle (st : Registry α)
  | failed (e : Err)
  deriving Repr

/-- Modelled from the spec: one iteration of the Server Loop: `receive`
a request, run the handler (a handler error being caught at the loop
boundary and converted into an error-status reply), deliver the result
via `reply`, and continue. -/
def serverStep {α : Type} (handler : α → Except String (α × Int))
    (errPayload : α) (st : Registry α) (cid : Nat) : StepOutcome α :=
  match receive st cid with
  | .fail e => .failed e
  | .blocked st' => .idle st'
  | .got h p st' =>
    let hr := handlerReply handler errPayload p
    match reply st' h hr.1 hr.2 with
    | .ok st'' => .processed h.requestId st''
    | .error e => .failed e

/-- Events observable at the registry boundary of the server loop. -/
inductive Ev where
  | recv (rid : Nat)
  | repl (rid : Nat)
  deriving DecidableEq, Repr

/-- Modelled from the spec: the Server Loop run for a bounded number of
iterations, recording the registry-level events it performs in order. -/
def serverRun {α : Type} (handler : α → Except String (α × Int))
    (errPayload : α) : Nat → Registry α → Nat → List Ev
  | 0, _, _ => []
  | n + 1, st, cid =>
    match serverStep handler errPayload st cid with
    | .processed rid st' => Ev.recv rid :: Ev.repl rid :: serverRun handler errPayload n st' cid
    | _ => []

/-- A trace is a sequence of immediately-paired receive/reply events:
each received request is replied to before the next receive happens. -/
def paired : List Ev → Bool
  | [] => true
  | Ev.recv r :: Ev.repl r' :: rest => r == r' && paired rest
  | _ => false

/-- Repeated `receive`: the ids and payloads of the first `n` requests
dequeued from a channel, threading the registry state. -/
def drain {α : Type} : Nat → Registry α → Nat → List (Nat × α)
  | 0, _, _ => []
  | k + 1, st, cid =>
    match receive st cid with
    | .got h p st' => (h.requestId, p) :: drain k st' cid
    | _ => []

/-- The error of a fallible result, `none` on success. -/
def errOf {β : Type} : Except Err β → Option Err
  | .ok _ => none
  | .error e => some e

/-- Byte-buffer payload configuration of the reference payload shape:
payload size is the byte length, the configured maximum is 100 bytes. -/
def byteCfg : Config (List Nat) :=
  { psize := List.length, maxChannels := 4, maxPayload := 100 }

section AssocLemmas

variable {β : Type}

theorem alookup_cons (a : Nat) (b : β) (tl : List (Nat × β)) (k : Nat) :
    alookup ((a, b) :: tl) k = if a = k then some b else alookup tl k := rfl

theorem aupdate_cons (a : Nat) (b : β) (tl : List (Nat × β)) (k : Nat) (v : β) :
    aupdate ((a, b) :: tl) k v =
      (if a = k then (k, v) else (a, b)) :: aupdate tl k v := by
  by_cases h : a = k <;> simp [aupdate, h]

theorem aremove_cons (a : Nat) (b : β) (tl : List (Nat × β)) (k : Nat) :
    aremove ((a, b) :: tl) k =
      if a = k then aremove tl k else (a, b) :: aremove tl k := by
  by_cases h : a = k <;> simp [aremove, List.filter_cons, h]

theorem alookup_aupdate_self (l : List (Nat × β)) (k : Nat) (v : β) :
    alookup (aupdate l k v) k = (alookup l k).map (fun _ => v) := by
  induction l with
  | nil => rfl
  | cons hd tl ih =>
    obtain ⟨a, b⟩ := hd
    by_cases h : a = k
    · subst h
      rw [aupdate_cons, if_pos rfl, alookup_cons, alookup_cons]
      simp
    · rw [aupdate_cons, if_neg h, alookup_cons, alookup_cons, if_neg h, if_neg h]
      exact ih

theorem alookup_aupdate_ne (l : List (Nat × β)) (k k' : Nat) (v : β)
    (h : k ≠ k') : alookup (aupdate l k v) k' = alookup l k' := by
  induction l with
  | nil => rfl
  | cons hd tl ih =>
    obtain ⟨a, b⟩ := hd
    by_cases hh : a = k
    · subst hh
      rw [aupdate_cons, if_pos rfl, alookup_cons, alookup_cons, if_neg h, if_neg h]
      exact ih
    · rw [aupdate_cons, if_neg hh, alookup_cons, alookup_cons]
      by_cases hh' : a = k'
      · rw [if_pos hh', if_pos hh']
      · rw [if_neg hh', if_neg hh']
        exact ih

theorem alookup_aremove_self (l : List (Nat × β)) (k : Nat) :
    alookup (aremove l k) k = none := by
  induction l with
  | nil => rfl
  | cons hd tl ih =>
    obtain ⟨a, b⟩ := hd
    by_cases h : a = k
    · rw [aremove_cons, if_pos h]
      exact ih
    · rw [aremove_cons, if_neg h, alookup_cons, if_neg h]
      exact ih

theorem alookup_aremove_ne (l : List (Nat × β)) (k k' : Nat)
    (h : k ≠ k') : alookup (aremove l k) k' = alookup l k' := by
  induction l with
  | nil => rfl
  | cons hd tl ih =>
    obtain ⟨a, b⟩ := hd
    by_cases hh : a = k
    · subst hh
      rw [aremove_cons, if_pos rfl, alookup_cons, if_neg h]
      exact ih
    · rw [aremove_cons, if_neg hh, alookup_cons, alookup_cons]
      by_cases hh' : a = k'
      · rw [if_pos hh', if_pos hh']
      · rw [if_neg hh', if_neg hh']
        exact ih

theorem filterMap_all_some {γ : Type} (f : β → Option γ) (g : β → γ) :
    ∀ l : List β, (∀ x ∈ l, f x = some (g x)) → l.filterMap f = l.map g := by
  intro l
  induction l with
  | nil => intro _; rfl
  | cons hd tl ih =>
    intro h
    have hhd := h hd (by simp)
    have htl : ∀ x ∈ tl, f x = some (g x) := fun x hx => h x (by simp [hx])
    simp [List.filterMap, hhd, ih htl]

end AssocLemmas

/-- The registry state after a successful `reply` deposits into the
waiting slot of handle `h` on channel `ch`. -/
def replyDeposit {α : Type} (st : Registry α) (h : RequestHandle)
    (ch : Channel α) (p : α) (s : Int) : Registry α :=
  let ch' := { ch with
    pendingReplies := aupdate ch.pendingReplies h.requestId (Slot.delivered p s) }
  { st with channels := aupdate st.channels h.channelId ch' }

/-- Helper: `reply` on a waiting slot succeeds and deposits the payload
and status into exactly that slot. -/
theorem reply_waiting {α : Type} (st : Registry α) (h : RequestHandle)
    (p : α) (s : Int) (ch : Channel α)
    (hch : alookup st.channels h.channelId = some ch)
    (hslot : alookup ch.pendingReplies h.requestId = some Slot.waiting) :
    reply st h p s = .ok (replyDeposit st h ch p s) := by
  simp [reply, hch, hslot, replyDeposit]

/-- Helper: what a successful `sendEnqueue` implies: the payload was
within bounds, the id is the fresh counter, the channel existed, and the
new state is the enqueued one. -/
theorem sendEnqueue_ok {α : Type} (cfg : Config α) (st : Registry α)
    (conn : Connection) (p : α) (rid : Nat) (st' : Registry α)
    (henq : sendEnqueue cfg st conn p = .ok (rid, st')) :
    cfg.psize p ≤ cfg.maxPayload ∧ rid = st.nextRequestId ∧
    ∃ ch, alookup st.channels conn.targetChannelId = some ch ∧
      st' = enqueueState st conn.targetChannelId ch rid p := by
  unfold sendEnqueue at henq
  by_cases hsz : cfg.maxPayload < cfg.psize p
  · rw [if_pos hsz] at henq
    exact absurd henq (by simp)
  · rw [if_neg hsz] at henq
    cases hch : alookup st.channels conn.targetChannelId with
    | none => rw [hch] at henq; exact absurd henq (by simp)
    | some ch =>
      rw [hch] at henq
      have hp : st.nextRequestId = rid ∧
          enqueueState st conn.targetChannelId ch st.nextRequestId p = st' := by
        simpa using henq
      refine ⟨Nat.le_of_not_lt hsz, hp.1.symm, ch, rfl, ?_⟩
      rw [← hp.2, hp.1]

/-- C2: a deposited reply goes to exactly the send that produced the
matching `requestId`: `reply` on a waiting slot succeeds, changes that
slot and no other slot of any channel, and the owning sender completes
with exactly that payload and status — never broadcast, never
misrouted. -/
theorem reply_routes_to_matching_request {α : Type} (st : Registry α)
    (h : RequestHandle) (p : α) (s : Int)
    (hw : slotOf st h.channelId h.requestId = some Slot.waiting) :
    ∃ st', reply st h p s = .ok st' ∧
      (∀ cid rid, slotOf st' cid rid =
        if cid = h.channelId ∧ rid = h.requestId then some (Slot.delivered p s)
        else slotOf st cid rid) ∧
      ∃ st'', sendComplete st' h.channelId h.requestId = some (p, s, st'') := by
  unfold slotOf at hw
  cases hch : alookup st.channels h.channelId with
  | none => rw [hch] at hw; exact absurd hw (by simp)
  | some ch =>
    rw [hch] at hw
    simp only [] at hw
    refine ⟨replyDeposit st h ch p s, reply_waiting st h p s ch hch hw, ?_, ?_⟩
    · intro cid rid
      by_cases hc : cid = h.channelId
      · subst hc
        by_cases hr : rid = h.requestId
        · subst hr
          simp [slotOf, replyDeposit, alookup_aupdate_self, hch, hw]
        · have hr' : h.requestId ≠ rid := fun e => hr e.symm
          simp [slotOf, replyDeposit, alookup_aupdate_self, hch,
            alookup_aupdate_ne _ _ _ _ hr', hr]
      · have hc' : h.channelId ≠ cid := fun e => hc e.symm
        simp [slotOf, replyDeposit, alookup_aupdate_ne _ _ _ _ hc', hc]
    · simp [sendComplete, replyDeposit, alookup_aupdate_self, hch, hw]

/-- C6: a second `reply` on the same request handle fails with
`InvalidHandle` and does not corrupt the first reply's delivery: the
blocked sender still completes with exactly the first reply's payload and
status. -/
theorem double_reply_rejected {α : Type} (st : Registry α)
    (h : RequestHandle) (p₁ p₂ : α) (s₁ s₂ : Int)
    (hw : slotOf st h.channelId h.requestId = some Slot.waiting) :
    ∃ st₁, reply st h p₁ s₁ = .ok st₁ ∧
      reply st₁ h p₂ s₂ = .error .InvalidHandle ∧
      ∃ st₂, sendComplete st₁ h.channelId h.requestId = some (p₁, s₁, st₂) := by
  unfold slotOf at hw
  cases hch : alookup st.channels h.channelId with
  | none => rw [hch] at hw; exact absurd hw (by simp)
  | some ch =>
    rw [hch] at hw
    simp only [] at hw
    refine ⟨replyDeposit st h ch p₁ s₁, reply_waiting st h p₁ s₁ ch hch hw, ?_, ?_⟩
    · simp [reply, replyDeposit, alookup_aupdate_self, hch, hw]
    · simp [sendComplete, replyDeposit, alookup_aupdate_self, hch, hw]

/-- Helper: `receive` on a channel whose queue starts with `r` dequeues
`r` and leaves the rest. -/
theorem receive_cons {α : Type} (st : Registry α) (cid : Nat) (ch : Channel α)
    (r : Request α) (rest : List (Request α))
    (hch : alookup st.channels cid = some ch)
    (hq : ch.pendingRequests = r :: rest) :
    receive st cid =
      .got { channelId := cid, requestId := r.requestId } r.payload
        (dequeueState st cid ch rest) := by
  simp [receive, hch, hq]

/-- Helper: draining a channel returns its queued requests in order. -/
theorem drain_fifo {α : Type} (q : List (Request α)) :
    ∀ (st : Registry α) (cid : Nat) (ch : Channel α),
      alookup st.channels cid = some ch → ch.pendingRequests = q →
      drain q.length st cid = q.map (fun r => (r.requestId, r.payload)) := by
  induction q with
  | nil => intro st cid ch _ _; rfl
  | cons r rest ih =>
    intro st cid ch hch hq
    rw [List.length_cons]
    simp only [drain, receive_cons st cid ch r rest hch hq, List.map_cons]
    have hch' : alookup (dequeueState st cid ch rest).channels cid =
        some { ch with pendingRequests := rest } := by
      simp [dequeueState, alookup_aupdate_self, hch]
    rw [ih (dequeueState st cid ch rest) cid _ hch' rfl]

/-- C3: requests are delivered to the server in strict enqueue (arrival)
order: `sendEnqueue` appends to the end of the channel's queue, and
draining a channel with K queued requests by successive `receive`s
returns them in exactly queue (FIFO) order, the oldest first, with no
reordering. -/
theorem receive_fifo_order {α : Type} (cfg : Config α) (q : List (Request α)) :
    (∀ (st : Registry α) (conn : Connection) (p : α) (rid : Nat)
        (st' : Registry α) (ch : Channel α),
      sendEnqueue cfg st conn p = .ok (rid, st') →
      alookup st.channels conn.targetChannelId = some ch →
      ∃ ch', alookup st'.channels conn.targetChannelId = some ch' ∧
        ch'.pendingRequests =
          ch.pendingRequests ++ [{ requestId := rid, payload := p }]) ∧
    (∀ (st : Registry α) (cid : Nat) (ch : Channel α),
      alookup st.channels cid = some ch → ch.pendingRequests = q →
      drain q.length st cid = q.map (fun r => (r.requestId, r.payload))) := by
  constructor
  · intro st conn p rid st' ch henq hch
    obtain ⟨-, -, ch₀, hch₀, hst⟩ := sendEnqueue_ok cfg st conn p rid st' henq
    rw [hch₀] at hch
    have hcc : ch₀ = ch := by injection hch
    subst hcc
    subst hst
    have hch' : alookup (enqueueState st conn.targetChannelId ch₀ rid p).channels
        conn.targetChannelId = some (enqueuedChannel ch₀ rid p) := by
      simp [enqueueState, alookup_aupdate_self, hch₀]
    exact ⟨enqueuedChannel ch₀ rid p, hch', rfl⟩
  · exact drain_fifo q

/-- C4: destroying a channel with M senders blocked on waiting reply
slots and a blocked receiver wakes all M+1 parties with `ChannelClosed`,
resolves every outstanding slot, and afterwards `attach` fails with
`NotFound`, `reply` on any old handle fails with `InvalidHandle`, and
`receive` fails with `NotFound`. -/
theorem destroy_channel_wakes_all {α : Type} (st : Registry α) (cid : Nat)
    (ch : Channel α)
    (hch : alookup st.channels cid = some ch)
    (hwait : ∀ q ∈ ch.pendingReplies, q.2 = Slot.waiting)
    (hrb : ch.receiverBlocked = true) :
    ∃ st', destroyChannel st cid =
        .ok (st', ch.pendingReplies.map (fun q => Wake.sender q.1 Err.ChannelClosed) ++
          [Wake.receiver Err.ChannelClosed]) ∧
      (ch.pendingReplies.map (fun q => Wake.sender q.1 Err.ChannelClosed) ++
          [Wake.receiver Err.ChannelClosed]).length = ch.pendingReplies.length + 1 ∧
      (∀ node, attach st' cid node = .error Err.NotFound) ∧
      (∀ rid p s, reply st' { channelId := cid, requestId := rid } p s =
        .error Err.InvalidHandle) ∧
      receive st' cid = .fail Err.NotFound := by
  have hmap : ch.pendingReplies.filterMap (fun q =>
      match q.2 with
      | Slot.waiting => some (Wake.sender q.1 Err.ChannelClosed)
      | Slot.delivered _ _ => none) =
      ch.pendingReplies.map (fun q => Wake.sender q.1 Err.ChannelClosed) := by
    apply filterMap_all_some
    intro x hx
    rw [hwait x hx]
  refine ⟨{ st with channels := aremove st.channels cid }, ?_, ?_, ?_, ?_, ?_⟩
  · simp [destroyChannel, hch, hrb, hmap]
  · simp
  · intro node
    simp [attach, alookup_aremove_self]
  · intro rid p s
    simp [reply, alookup_aremove_self]
  · simp [receive, alookup_aremove_self]

/-- C5: a `send` whose timeout elapses with no server-side
`receive`/`reply` returns a `Timeout` error and leaves no residual
registry state: the queued request and its reply slot are removed, so no
subsequent `receive` observes that request and a later `reply` to its id
fails with `InvalidHandle`. -/
theorem send_timeout_no_residue {α : Type} (cfg : Config α) (st : Registry α)
    (conn : Connection) (p : α) (rid : Nat) (st₁ : Registry α)
    (henq : sendEnqueue cfg st conn p = .ok (rid, st₁)) :
    sendTimedOut cfg st conn p =
      (.error .Timeout, sendCancel st₁ conn.targetChannelId rid) ∧
    ∃ ch, alookup (sendCancel st₁ conn.targetChannelId rid).channels
        conn.targetChannelId = some ch ∧
      (∀ r ∈ ch.pendingRequests, r.requestId ≠ rid) ∧
      alookup ch.pendingReplies rid = none ∧
      ∀ p' s', reply (sendCancel st₁ conn.targetChannelId rid)
          { channelId := conn.targetChannelId, requestId := rid } p' s' =
        .error Err.InvalidHandle := by
  obtain ⟨-, -, ch₀, hch₀, hst⟩ := sendEnqueue_ok cfg st conn p rid st₁ henq
  refine ⟨by simp [sendTimedOut, henq], ?_⟩
  have hch₁ : alookup st₁.channels conn.targetChannelId =
      some (enqueuedChannel ch₀ rid p) := by
    subst hst
    simp [enqueueState, alookup_aupdate_self, hch₀]
  have hch₂ : alookup (sendCancel st₁ conn.targetChannelId rid).channels
      conn.targetChannelId = some (cancelledChannel (enqueuedChannel ch₀ rid p) rid) := by
    simp [sendCancel, hch₁, alookup_aupdate_self]
  refine ⟨cancelledChannel (enqueuedChannel ch₀ rid p) rid, hch₂, ?_, ?_, ?_⟩
  · intro r hr
    have := List.of_mem_filter hr
    simpa using this
  · exact alookup_aremove_self _ _
  · intro p' s'
    simp [reply, hch₂, cancelledChannel, alookup_aremove_self]

/-- C7: the server loop converts a handler failure into an error-status
reply rather than failing or stopping: with a request at the head of the
queue and a handler that errors on it, the loop step still completes as
`processed` (never a registry-level failure, never termination) and the
caller's slot receives the diagnostic payload with negative status -1. -/
theorem handler_error_becomes_error_reply {α : Type}
    (handler : α → Except String (α × Int)) (errPayload : α)
    (st : Registry α) (cid : Nat) (ch : Channel α) (r : Request α)
    (rest : List (Request α)) (msg : String)
    (hch : alookup st.channels cid = some ch)
    (hq : ch.pendingRequests = r :: rest)
    (hslot : alookup ch.pendingReplies r.requestId = some Slot.waiting)
    (hfail : handler r.payload = .error msg) :
    ∃ st', serverStep handler errPayload st cid = .processed r.requestId st' ∧
      slotOf st' cid r.requestId = some (Slot.delivered errPayload (-1)) := by
  have hrecv := receive_cons st cid ch r rest hch hq
  have hch' : alookup (dequeueState st cid ch rest).channels cid =
      some { ch with pendingRequests := rest } := by
    simp [dequeueState, alookup_aupdate_self, hch]
  have hrep := reply_waiting (dequeueState st cid ch rest)
    { channelId := cid, requestId := r.requestId } errPayload (-1)
    { ch with pendingRequests := rest } hch' hslot
  refine ⟨replyDeposit (dequeueState st cid ch rest) { channelId := cid, requestId := r.requestId } { ch with pendingRequests := rest } errPayload (-1), ?_, ?_⟩
  · simp [serverStep, hrecv, handlerReply, hfail, hrep]
  · simp [slotOf, replyDeposit, dequeueState, alookup_aupdate_self, hch, hslot]

/-- C8: in the server loop each received request is replied to before
the next `receive` happens: every bounded run of the loop produces a
trace that is a sequence of immediately adjacent receive/reply pairs for
the same request id, so at most one request is ever being processed. -/
theorem server_loop_exclusive_processing {α : Type}
    (handler : α → Except String (α × Int)) (errPayload : α) (n : Nat) :
    ∀ (st : Registry α) (cid : Nat),
      paired (serverRun handler errPayload n st cid) = true := by
  induction n with
  | zero => intro st cid; rfl
  | succ k ih =>
    intro st cid
    cases hstep : serverStep handler errPayload st cid with
    | processed rid st' => simp [serverRun, hstep, paired, ih st' cid]
    | idle st' => simp [serverRun, hstep, paired]
    | failed e => simp [serverRun, hstep, paired]

/-- C9: the core length-bounds payloads and nothing more: a `send` whose
payload exceeds the configured maximum fails with `PayloadTooLarge`; the
success/error outcome depends only on the payload's size, never on its
contents; and an accepted payload is enqueued verbatim. -/
theorem payload_length_bounded_uninterpreted {α : Type} (cfg : Config α)
    (st : Registry α) (conn : Connection) (p : α) :
    (cfg.maxPayload < cfg.psize p →
      sendEnqueue cfg st conn p = .error .PayloadTooLarge) ∧
    (∀ p' : α, cfg.psize p' = cfg.psize p →
      errOf (sendEnqueue cfg st conn p) = errOf (sendEnqueue cfg st conn p')) ∧
    (∀ rid st', sendEnqueue cfg st conn p = .ok (rid, st') →
      ∃ ch, alookup st.channels conn.targetChannelId = some ch ∧
        alookup st'.channels conn.targetChannelId =
          some (enqueuedChannel ch rid p) ∧
        (enqueuedChannel ch rid p).pendingRequests =
          ch.pendingRequests ++ [{ requestId := rid, payload := p }]) := by
  refine ⟨?_, ?_, ?_⟩
  · intro hbig
    simp [sendEnqueue, hbig]
  · intro p' hsz
    unfold sendEnqueue
    rw [hsz]
    by_cases hbig : cfg.maxPayload < cfg.psize p
    · rw [if_pos hbig, if_pos hbig]
    · rw [if_neg hbig, if_neg hbig]
      cases alookup st.channels conn.targetChannelId with
      | none => rfl
      | some ch => rfl
  · intro rid st' henq
    obtain ⟨-, -, ch, hch, hst⟩ := sendEnqueue_ok cfg st conn p rid st' henq
    subst hst
    refine ⟨ch, hch, ?_, rfl⟩
    simp [enqueueState, alookup_aupdate_self, hch]

/-- C1: in the round-trip scenario the server's handler produces
`{msg_type := 1, text := "Hello from the server!"}` with status 0, and the
client's call with `{msg_type := 1, text := "Hello, Server!"}` returns
exactly that payload with status 0. -/
theorem round_trip_hello :
    serverHandler clientRequest = ({ msg_type := 1, text := "Hello from the server!" }, 0) ∧
    roundTrip "Hello, Server!" =
      .ok ({ msg_type := 1, text := "Hello from the server!" }, 0) :=
  ⟨rfl, rfl⟩

/-- C10: the server's reply is the same fixed value — status 0, payload
with `msg_type` 1 and text "Hello from the server!" — independent of the
received request's contents, and two runs differing only in the client's
request text produce identical replies. -/
theorem server_reply_independent_of_request :
    (∀ m : Message,
      serverHandler m = ({ msg_type := 1, text := "Hello from the server!" }, 0)) ∧
    (∀ t₁ t₂ : String, roundTrip t₁ = roundTrip t₂) :=
  ⟨fun _ => rfl, fun _ _ => rfl⟩

/-- A concrete channel with three queued requests, three waiting reply
slots, and a blocked receiver, used to evaluate the theorems. -/
def exChannel : Channel (List Nat) :=
  { pendingRequests :=
      [{ requestId := 1, payload := [1] }, { requestId := 2, payload := [2] },
        { requestId := 3, payload := [3] }],
    pendingReplies := [(1, Slot.waiting), (2, Slot.waiting), (3, Slot.waiting)],
    receiverBlocked := true }

/-- A concrete registry holding `exChannel` as channel 1. -/
def exSt : Registry (List Nat) :=
  { channels := [(1, exChannel)], nextChannelId := 2, nextRequestId := 4 }

/-- A handler that fails on every payload. -/
def failHandler : List Nat → Except String (List Nat × Int) :=
  fun _ => .error "bad request"

/-- Evaluation of the reply-routing theorem on `exSt`: replying to
request 2 on channel 1 changes only that slot and completes only that
send. -/
theorem reply_routes_witness :
    slotOf exSt 1 2 = some Slot.waiting ∧
    (∃ st', reply exSt { channelId := 1, requestId := 2 } [9] 0 = .ok st' ∧
      (∀ cid rid, slotOf st' cid rid =
        if cid = 1 ∧ rid = 2 then some (Slot.delivered [9] 0)
        else slotOf exSt cid rid) ∧
      ∃ st'', sendComplete st' 1 2 = some ([9], 0, st'')) :=
  ⟨by decide,
    reply_routes_to_matching_request exSt { channelId := 1, requestId := 2 } [9] 0 (by decide)⟩

/-- Evaluation of the FIFO theorem on `exSt`: draining channel 1 returns
its three requests in enqueue order. -/
theorem receive_fifo_witness :
    alookup exSt.channels 1 = some exChannel ∧
    drain exChannel.pendingRequests.length exSt 1 =
      exChannel.pendingRequests.map (fun r => (r.requestId, r.payload)) :=
  ⟨by decide,
    (receive_fifo_order byteCfg exChannel.pendingRequests).2 exSt 1 exChannel (by decide) rfl⟩

/-- Evaluation of the destroy theorem on `exSt`: destroying channel 1
wakes its three blocked senders and its blocked receiver with
`ChannelClosed` and detaches the channel. -/
theorem destroy_wakes_witness :
    (alookup exSt.channels 1 = some exChannel ∧
      (∀ q ∈ exChannel.pendingReplies, q.2 = Slot.waiting) ∧
      exChannel.receiverBlocked = true) ∧
    (∃ st', destroyChannel exSt 1 =
        .ok (st', exChannel.pendingReplies.map (fun q => Wake.sender q.1 Err.ChannelClosed) ++
          [Wake.receiver Err.ChannelClosed]) ∧
      (exChannel.pendingReplies.map (fun q => Wake.sender q.1 Err.ChannelClosed) ++
          [Wake.receiver Err.ChannelClosed]).length = exChannel.pendingReplies.length + 1 ∧
      (∀ node, attach st' 1 node = .error Err.NotFound) ∧
      (∀ rid p s, reply st' { channelId := 1, requestId := rid } p s =
        .error Err.InvalidHandle) ∧
      receive st' 1 = .fail Err.NotFound) :=
  ⟨⟨by decide, by decide, by decide⟩,
    destroy_channel_wakes_all exSt 1 exChannel (by decide) (by decide) (by decide)⟩

/-- Evaluation of the timeout theorem on `exSt`: a timed-out send of
payload `[7]` gets `Timeout` and leaves no queued request, no reply slot,
and no match for a later reply. -/
theorem send_timeout_witness :
    sendEnqueue byteCfg exSt { targetChannelId := 1, targetNode := 0 } [7] =
      .ok (4, enqueueState exSt 1 exChannel 4 [7]) ∧
    (sendTimedOut byteCfg exSt { targetChannelId := 1, targetNode := 0 } [7] =
      (.error .Timeout, sendCancel (enqueueState exSt 1 exChannel 4 [7]) 1 4) ∧
    ∃ ch, alookup (sendCancel (enqueueState exSt 1 exChannel 4 [7]) 1 4).channels 1 =
        some ch ∧
      (∀ r ∈ ch.pendingRequests, r.requestId ≠ 4) ∧
      alookup ch.pendingReplies 4 = none ∧
      ∀ p' s', reply (sendCancel (enqueueState exSt 1 exChannel 4 [7]) 1 4)
          { channelId := 1, requestId := 4 } p' s' = .error Err.InvalidHandle) :=
  ⟨rfl,
    send_timeout_no_residue byteCfg exSt { targetChannelId := 1, targetNode := 0 } [7] 4
      (enqueueState exSt 1 exChannel 4 [7]) rfl⟩

/-- Evaluation of the double-reply theorem on `exSt`: after a first
reply to request 3 a second reply is `InvalidHandle` and the sender still
gets the first payload `[5]` with status 0. -/
theorem double_reply_witness :
    slotOf exSt 1 3 = some Slot.waiting ∧
    (∃ st₁, reply exSt { channelId := 1, requestId := 3 } [5] 0 = .ok st₁ ∧
      reply st₁ { channelId := 1, requestId := 3 } [6] 0 = .error .InvalidHandle ∧
      ∃ st₂, sendComplete st₁ 1 3 = some ([5], 0, st₂)) :=
  ⟨by decide,
    double_reply_rejected exSt { channelId := 1, requestId := 3 } [5] [6] 0 0 (by decide)⟩

/-- Evaluation of the handler-failure theorem on `exSt`: with a handler
that always fails, the loop step still processes request 1 and deposits
an empty payload with status -1. -/
theorem handler_error_witness :
    (alookup exSt.channels 1 = some exChannel ∧
      alookup exChannel.pendingReplies 1 = some Slot.waiting ∧
      failHandler [1] = .error "bad request") ∧
    (∃ st', serverStep failHandler [] exSt 1 = .processed 1 st' ∧
      slotOf st' 1 1 = some (Slot.delivered [] (-1))) :=
  ⟨⟨by decide, by decide, rfl⟩,
    handler_error_becomes_error_reply failHandler [] exSt 1 exChannel
      { requestId := 1, payload := [1] }
      [{ requestId := 2, payload := [2] }, { requestId := 3, payload := [3] }]
      "bad request" (by decide) rfl (by decide) rfl⟩

/-- Evaluation of the payload-bound theorem: a 101-byte payload against
the configured 100-byte maximum fails with `PayloadTooLarge`. -/
theorem payload_too_large_witness :
    byteCfg.maxPayload < byteCfg.psize (List.replicate 101 0) ∧
    sendEnqueue byteCfg exSt { targetChannelId := 1, targetNode := 0 }
      (List.replicate 101 0) = .error .PayloadTooLarge :=
  ⟨by decide,
    (payload_length_bounded_uninterpreted byteCfg exSt
      { targetChannelId := 1, targetNode := 0 } (List.replicate 101 0)).1 (by decide)⟩

end QNXIpc
